import Mathlib

/-!
Shallow embedding of the crawl engine of the `amore-agent-amazon` repository
(`data-collector/scrapers/rank_scraper.py`, `scrapers/base_scraper.py`,
`utils/rate_limiter.py`, `utils/cache_manager.py`) together with proofs about
the claims of the specification.

Conventions used throughout:
* The browser / DOM is the environment: every value the code reads from the
  rendered page (text contents, attributes, whether a navigation or selector
  wait succeeded) is an explicit oracle parameter of the Lean functions.
* Wall-clock timestamps are modelled as `Int` (seconds); `datetime.now()`
  results are passed in explicitly.
* Python `float` fields that no claim touches (price, rating, scraping
  delays) are elided; `Optional[int]`/`str` fields become `Option Nat` /
  `String`.
* `async`/`await` and `sleep` calls do not change the data state; sleeps are
  recorded in traces where a claim talks about them.
-/

/-! ## Product extraction (`rank_scraper.py`, `_extract_product_data`) -/

/-- One scraped product row, as built by `_extract_product_data`.
Only the fields the claims mention are kept (`rank`, `asin`); the remaining
extracted attributes (`product_name`, `price`, `rating`, `review_count`,
`product_url`, `scraped_at`) are carried through the algorithm unchanged and
never inspected, so they are elided from the embedding. -/
structure Product where
  rank : Option Nat
  asin : String
  deriving DecidableEq, Repr

/-- The raw data of one `.zg-grid-general-faceout` DOM element, i.e. what the
environment answers to the selector queries of `_extract_product_data`:
the text content of the first matching rank badge (if any), the `href` of the
`a.a-link-normal` link (if any), and whether one of the awaited calls raised
(in which case the element is skipped by the surrounding `try`/`except`). -/
structure RawElement where
  rankText : Option String
  href : Option String
  raises : Bool
  deriving DecidableEq, Repr

/-- Value of a nonempty digit string (`int(...)` on the regex capture). -/
def digitsToNat (cs : List Char) : Nat :=
  cs.foldl (fun n c => 10 * n + (c.toNat - 48)) 0

/-- Longest digit run at the head of the character list (the `\d+` part). -/
def takeDigits : List Char → List Char
  | [] => []
  | c :: rest => if c.isDigit then c :: takeDigits rest else []

/-- Embedding of `re.search(r"#?(\d+)", rank_text)` followed by
`int(match.group(1))`: the leftmost match of an optional hash sign followed by
a digit run, returning the numeric value of the digit run. -/
def searchRankNum : List Char → Option Nat
  | [] => none
  | '#' :: c :: rest =>
      if c.isDigit then some (digitsToNat (c :: takeDigits rest))
      else searchRankNum (c :: rest)
  | c :: rest =>
      if c.isDigit then some (digitsToNat (c :: takeDigits rest))
      else searchRankNum rest

/-- Character class `[A-Z0-9]` of the ASIN regex. -/
def isAsinChar (c : Char) : Bool :=
  (('A' ≤ c && c ≤ 'Z') || c.isDigit)

/-- Try to match `/dp/([A-Z0-9]{10})` at the head of the character list. -/
def dpAsinAt : List Char → Option String
  | '/' :: 'd' :: 'p' :: '/' :: rest =>
      let ten := rest.take 10
      if ten.length = 10 && ten.all isAsinChar then some (String.mk ten)
      else none
  | _ => none

/-- Embedding of `re.search(r"/dp/([A-Z0-9]{10})", href)`: leftmost match. -/
def searchDpAsin : List Char → Option String
  | [] => none
  | c :: rest =>
      match dpAsinAt (c :: rest) with
      | some a => some a
      | none => searchDpAsin rest

/-- Embedding of `RankScraper._extract_product_data` (rank_scraper.py
lines 491-575): parse the rank badge text with `#?(\d+)` (any selector in the
fallback chain having produced `rankText`), parse the link `href` with
`/dp/([A-Z0-9]{10})`, and return `None` when no truthy ASIN was obtained or
when one of the awaited calls raised. -/
def extractProductData (e : RawElement) : Option Product :=
  if e.raises then none
  else
    let rank : Option Nat :=
      match e.rankText with
      | none => none
      | some t => searchRankNum t.data
    let asin : Option String :=
      match e.href with
      | none => none
      | some h => searchDpAsin h.data
    match asin with
    | none => none
    | some a => if a = "" then none else some { rank := rank, asin := a }

/-- Embedding of `RankScraper._extract_products_from_page` (lines 471-489):
extract every element in DOM order, keeping the results that are truthy and
have a truthy `asin`. -/
def extractProductsFromPage (es : List RawElement) : List Product :=
  es.foldl
    (fun acc e =>
      match extractProductData e with
      | some p => if p.asin ≠ "" then acc ++ [p] else acc
      | none => acc)
    []




/-! ## Collection algorithms (`rank_scraper.py`) -/

/-- Python `str.rstrip('/')`. -/
def rstripSlash (s : String) : String :=
  String.mk ((s.data.reverse.dropWhile (fun c => c == '/')).reverse)

/-- Page URL of the pagination loops (`page 1 = base URL`, later pages append
a `pg` parameter with `&`/`?` chosen by whether the URL already has a query). -/
def buildPageUrl (categoryUrl : String) (page : Nat) : String :=
  if page = 1 then categoryUrl
  else if categoryUrl.data.any (fun c => c == '?') then
    categoryUrl ++ "&pg=" ++ toString page
  else categoryUrl ++ "?pg=" ++ toString page

/-- URL used by `_scrape_with_hybrid` for a given page and retry index
(lines 184-215): the base form on the first attempt, the trailing-slash form
on retry 1 and the `ref` form on retry 2 (both only for pages after the
first). -/
def hybridPageUrl (categoryUrl : String) (page retry : Nat) : String :=
  if 1 < page ∧ retry = 1 then rstripSlash categoryUrl ++ "/?pg=" ++ toString page
  else if 1 < page ∧ retry = 2 then
    rstripSlash categoryUrl ++ "/ref=zg_bs_pg_" ++ toString page ++ "?pg=" ++ toString page
  else buildPageUrl categoryUrl page

/-- `any(p.get("asin") == product["asin"] for p in rankings)`. -/
def hasAsin (rankings : List Product) (a : String) : Bool :=
  rankings.any (fun p => p.asin == a)

/-- One step of the duplicate-avoiding merge loop used by the scroll and
hybrid collectors: append the product only when it is truthy with a truthy
`asin` and its `asin` is not yet present. -/
def addUnique (rankings : List Product) (p : Product) : List Product :=
  if (p.asin != "") && !hasAsin rankings p.asin then rankings ++ [p] else rankings

/-- The `for product in current_products: ...` merge loop. -/
def mergeProducts (rankings cur : List Product) : List Product :=
  cur.foldl addUnique rankings

/-- The rank-fill pass run at the end of every collection mode
(`for idx, product in enumerate(rankings, start=1): if product.get("rank") is
None: product["rank"] = idx`, lines 144-146, 295-297 and 440-442): a product
keeps an already-extracted rank and only a `None` rank is replaced by the
1-based output position. -/
def assignRanks : Nat → List Product → List Product
  | _, [] => []
  | idx, p :: rest =>
      (if p.rank = none then { p with rank := some idx } else p)
        :: assignRanks (idx + 1) rest

/-- Loop body of `RankScraper._scroll_within_page` (lines 309-363).
Arguments after the oracle `ext` (extraction results of the successive
`_extract_products_from_page` calls) and the per-page cap: remaining fuel
(`max_scrolls` minus scrolls done), the extraction-call index, `rankings`,
`previous_count` and `no_change_count`. -/
def scrollWithinGo (ext : Nat → List RawElement) (maxProducts : Nat) :
    Nat → Nat → List Product → Nat → Nat → List Product
  | 0, _, rankings, _, _ => rankings
  | fuel + 1, k, rankings, prev, nc =>
      let rankings := mergeProducts rankings (extractProductsFromPage (ext k))
      if maxProducts ≤ rankings.length then rankings
      else if rankings.length = prev then
        if 3 ≤ nc + 1 then rankings
        else scrollWithinGo ext maxProducts fuel (k + 1) rankings rankings.length (nc + 1)
      else scrollWithinGo ext maxProducts fuel (k + 1) rankings rankings.length 0

/-- `RankScraper._scroll_within_page` with its `max_scrolls = 15`. -/
def scrollWithinPage (ext : Nat → List RawElement) (maxProducts : Nat) : List Product :=
  scrollWithinGo ext maxProducts 15 0 [] 0 0

/-- Environment of one navigation attempt of the hybrid collector: whether
`goto` returned `True`, whether the product-grid selector (or one of its
alternatives) was found, and the extraction oracle for the in-page scrolls. -/
structure PageAttempt where
  gotoOk : Bool
  selectorFound : Bool
  extracts : Nat → List RawElement

/-- Retry loop over the attempts of one page in `_scrape_with_hybrid`
(lines 199-255): the first attempt whose navigation succeeds, whose grid is
found and whose in-page scroll yields a nonempty product list wins; `none`
when every retry fails. -/
def tryPage : List PageAttempt → Option (List Product)
  | [] => none
  | a :: rest =>
      if !a.gotoOk then tryPage rest
      else if !a.selectorFound then tryPage rest
      else
        let ps := scrollWithinPage a.extracts 60
        if ps.isEmpty then tryPage rest else some ps

/-- `max_retries_per_page = 3` (line 177). -/
def maxRetriesPerPage : Nat := 3

/-- The three attempts the retry loop runs for one page. -/
def attemptsFor (att : Nat → PageAttempt) : List PageAttempt :=
  (List.range maxRetriesPerPage).map att

/-- `max_page = (max_rank + 49) // 50` (lines 176 and 382). -/
def maxPageFor (maxRank : Nat) : Nat := (maxRank + 49) / 50

/-- Page loop of `_scrape_with_hybrid` (lines 182-288).  `att page retry` is
the environment of attempt `retry` on page `page` (pages are 1-based).
A page whose three retries all fail breaks the loop for page 1 and for later
pages alike; products of a successful page are merged with duplicate-`asin`
suppression; the loop also stops once `max_rank` products are held. -/
def hybridGo (att : Nat → Nat → PageAttempt) (maxRank : Nat) :
    Nat → Nat → List Product → List Product
  | 0, _, acc => acc
  | fuel + 1, page, acc =>
      if page ≤ maxPageFor maxRank ∧ acc.length < maxRank then
        match tryPage (attemptsFor (att page)) with
        | none => acc
        | some ps =>
            let acc := mergeProducts acc ps
            if maxRank ≤ acc.length then acc
            else hybridGo att maxRank fuel (page + 1) acc
      else acc

/-- `RankScraper._scrape_with_hybrid` (lines 155-307): run the page loop,
truncate to `max_rank`, and assign positional ranks to products whose
extracted rank is `None`. -/
def hybridScrape (att : Nat → Nat → PageAttempt) (maxRank : Nat) : List Product :=
  assignRanks 1 ((hybridGo att maxRank (maxPageFor maxRank) 1 []).take maxRank)

/-- Loop body of `_scrape_with_scroll` (lines 84-138) with its
`no_change_count >= 5` aggressive-rescroll branch; `k` indexes the successive
`_extract_products_from_page` calls (the aggressive branch performs an extra
one). -/
def scrollScrapeGo (ext : Nat → List RawElement) (maxRank : Nat) :
    Nat → Nat → List Product → Nat → Nat → List Product
  | 0, _, rankings, _, _ => rankings
  | fuel + 1, k, rankings, prev, nc =>
      let rankings := mergeProducts rankings (extractProductsFromPage (ext k))
      if maxRank ≤ rankings.length then rankings
      else if rankings.length = prev then
        if 5 ≤ nc + 1 then
          let rankings2 := mergeProducts rankings (extractProductsFromPage (ext (k + 1)))
          if rankings2.length = prev then rankings2
          else scrollScrapeGo ext maxRank fuel (k + 2) rankings2 rankings2.length 0
        else scrollScrapeGo ext maxRank fuel (k + 1) rankings rankings.length (nc + 1)
      else scrollScrapeGo ext maxRank fuel (k + 1) rankings rankings.length 0

/-- `RankScraper._scrape_with_scroll` (lines 50-153): a failed initial
navigation returns the empty list; otherwise scroll with `max_scrolls = 30`
(the `wait_for_selector` result on line 73 is ignored by the source),
truncate to `max_rank` and fill in missing ranks positionally. -/
def scrollScrape (gotoOk : Bool) (ext : Nat → List RawElement) (maxRank : Nat) :
    List Product :=
  if gotoOk then assignRanks 1 ((scrollScrapeGo ext maxRank 30 0 [] 0 0).take maxRank)
  else []

/-- Environment of one page of `_scrape_with_pagination`: navigation result,
selector-wait result, and the elements of the single extraction pass. -/
structure PageFetch where
  gotoOk : Bool
  selectorFound : Bool
  elements : List RawElement

/-- Page loop of `_scrape_with_pagination` (lines 386-434): pages are fetched
in order and their products appended with `rankings.extend(page_products)` —
without any duplicate check. -/
def paginationGo (env : Nat → PageFetch) (maxRank : Nat) :
    Nat → Nat → List Product → List Product
  | 0, _, rankings => rankings
  | fuel + 1, page, rankings =>
      if page ≤ maxPageFor maxRank ∧ rankings.length < maxRank then
        let f := env page
        if !f.gotoOk then rankings
        else if !f.selectorFound then rankings
        else
          let pageProducts := extractProductsFromPage f.elements
          if pageProducts.isEmpty then rankings
          else
            let rankings := rankings ++ pageProducts
            if maxRank ≤ rankings.length then rankings
            else paginationGo env maxRank fuel (page + 1) rankings
      else rankings

/-- `RankScraper._scrape_with_pagination` (lines 365-445). -/
def paginationScrape (env : Nat → PageFetch) (maxRank : Nat) : List Product :=
  assignRanks 1 ((paginationGo env maxRank (maxPageFor maxRank) 1 []).take maxRank)

/-- The oracles all three collection modes may consult. -/
structure ScrapeEnv where
  hybridAttempts : Nat → Nat → PageAttempt
  scrollGotoOk : Bool
  scrollExtracts : Nat → List RawElement
  pageFetches : Nat → PageFetch

/-- `RankScraper.scrape` (lines 27-48): dispatch on the `use_hybrid` and
`use_scroll` flags. -/
def scrape (env : ScrapeEnv) (maxRank : Nat) (useScroll useHybrid : Bool) :
    List Product :=
  if useHybrid then hybridScrape env.hybridAttempts maxRank
  else if useScroll then scrollScrape env.scrollGotoOk env.scrollExtracts maxRank
  else paginationScrape env.pageFetches maxRank

/-! ## Rate limiter (`utils/rate_limiter.py`) -/

/-- `SCRAPER_SETTINGS["session_rotation_interval"]` (settings.py line 91). -/
def sessionRotationInterval : Nat := 40

/-- `SCRAPER_SETTINGS["session_rotation_jitter"]` (settings.py line 92). -/
def sessionRotationJitter : Nat := 15

/-- `RATE_LIMIT["requests_per_minute"]` (settings.py line 138). -/
def defaultRequestsPerMinute : Nat := 15

/-- `RATE_LIMIT["requests_per_hour"]` (settings.py line 139). -/
def defaultRequestsPerHour : Nat := 200

/-- State of a `RateLimiter` instance.  Timestamps are `Int` seconds; the two
deques hold the recorded request times, oldest first.  The delay-model fields
(`delay_min`, `delay_max`, `total_delay_time`) only feed the float-valued
sleep computation and are elided. -/
structure RateLimiterState where
  requestsPerMinute : Nat
  requestsPerHour : Nat
  minuteRequests : List Int
  hourRequests : List Int
  sessionRequestCount : Nat
  rotationThreshold : Int
  totalRequests : Nat
  deriving DecidableEq, Repr

/-- `RateLimiter._calculate_rotation_threshold` (lines 55-59):
`base + random.randint(-jitter, jitter)`.  The random draw is the explicit
argument `r`; callers of the theorems constrain it to the range that
`random.randint(-jitter, jitter)` can produce. -/
def calcRotationThreshold (r : Int) : Int :=
  (sessionRotationInterval : Int) + r

/-- `RateLimiter.__init__` (lines 24-53) with explicit per-minute/per-hour
limits (the global instance passes the settings defaults) and the random
draw `r` of the initial rotation threshold. -/
def RateLimiterState.init (rpm rph : Nat) (r : Int) : RateLimiterState :=
  { requestsPerMinute := rpm
    requestsPerHour := rph
    minuteRequests := []
    hourRequests := []
    sessionRequestCount := 0
    rotationThreshold := calcRotationThreshold r
    totalRequests := 0 }

/-- `RateLimiter._clean_old_requests` (lines 102-114): pop entries strictly
older than one minute (resp. one hour) from the front of each deque. -/
def RateLimiterState.cleanOldRequests (s : RateLimiterState) (now : Int) :
    RateLimiterState :=
  { s with
    minuteRequests := s.minuteRequests.dropWhile (fun t => t < now - 60)
    hourRequests := s.hourRequests.dropWhile (fun t => t < now - 3600) }

/-- `RateLimiter.can_make_request` (lines 116-126).  The Python method
mutates the object by cleaning the windows; the embedding returns the
boolean together with the cleaned state. -/
def RateLimiterState.canMakeRequest (s : RateLimiterState) (now : Int) :
    Bool × RateLimiterState :=
  let s := s.cleanOldRequests now
  if s.requestsPerMinute ≤ s.minuteRequests.length then (false, s)
  else if s.requestsPerHour ≤ s.hourRequests.length then (false, s)
  else (true, s)

/-- `RateLimiter.record_request` (lines 163-177): append `now` to both
windows unconditionally and bump the session and total counters. -/
def RateLimiterState.recordRequest (s : RateLimiterState) (now : Int) :
    RateLimiterState :=
  { s with
    minuteRequests := s.minuteRequests ++ [now]
    hourRequests := s.hourRequests ++ [now]
    sessionRequestCount := s.sessionRequestCount + 1
    totalRequests := s.totalRequests + 1 }

/-- `RateLimiter.should_rotate_session` (lines 179-181):
`session_request_count >= rotation_threshold`. -/
def RateLimiterState.shouldRotateSession (s : RateLimiterState) : Bool :=
  s.rotationThreshold ≤ (s.sessionRequestCount : Int)

/-- `RateLimiter.reset_session_count` (lines 183-187) with the fresh random
draw `r` of the new threshold. -/
def RateLimiterState.resetSessionCount (s : RateLimiterState) (r : Int) :
    RateLimiterState :=
  { s with sessionRequestCount := 0, rotationThreshold := calcRotationThreshold r }

/-- A sequence of `record_request` calls at the given timestamps. -/
def RateLimiterState.applyRecords (s : RateLimiterState) (ts : List Int) :
    RateLimiterState :=
  ts.foldl RateLimiterState.recordRequest s

/-! ## Navigator (`base_scraper.py`, `BaseScraper.goto`) -/

/-- `SCRAPER_SETTINGS["max_retries"]` (settings.py line 77). -/
def settingsMaxRetries : Nat := 5

/-- `SCRAPER_SETTINGS["retry_delay"]` (settings.py line 78). -/
def settingsRetryDelay : Nat := 25

/-- Classification of an exception raised by `page.goto`, following the
string tests of lines 229-249: `"Timeout" in msg`, `"net::ERR_ABORTED" /
"ERR_FAILED" in msg`, anything else. -/
inductive NavErrKind
  | timeout
  | aborted
  | other
  deriving DecidableEq, Repr

/-- Environment outcome of one `await self.page.goto(...)` call: either it
returned (with an optional HTTP response carrying a status) or it raised. -/
inductive NavOutcome
  | ok (status : Option Nat)
  | exn (k : NavErrKind)
  deriving DecidableEq, Repr

/-- Whether the navigation call returned without raising. -/
def NavOutcome.isOk : NavOutcome → Bool
  | .ok _ => true
  | .exn _ => false

/-- Observable trace of one `BaseScraper.goto` call: the returned boolean,
the outcomes of the attempts that actually ran, the number of
`rate_limiter.record_request()` calls, the durations of the exponential
backoff sleeps (`retry_delay * 2 ** attempt`, line 191), and the number of
extra random anti-bot-detection sleeps (lines 243-245). -/
structure GotoTrace where
  success : Bool
  attemptsRun : List NavOutcome
  recorded : Nat
  backoffSleeps : List Nat
  botSleeps : Nat
  deriving DecidableEq, Repr

/-- Retry loop of `BaseScraper.goto` (lines 186-255).  `outcomes attempt` is
the answer of the environment to the `page.goto` call of that attempt;
`wu` is the current `wait_until` strategy (downgraded from `"networkidle"`
to `"load"` after a first-attempt timeout, lines 233-236).  The accumulators
mirror the observable events; `fuel` counts the loop iterations left
(`range(max_retries)`).  Note that `rate_limiter.record_request()`
(line 205) runs on every attempt whose `page.goto` returned, before the
status is inspected. -/
def gotoGo (retryDelay maxRetries : Nat) (outcomes : Nat → NavOutcome) :
    Nat → Nat → String → List NavOutcome → Nat → List Nat → Nat → GotoTrace
  | 0, _, _, atts, recCount, bs, bot => ⟨false, atts, recCount, bs, bot⟩
  | fuel + 1, attempt, wu, atts, recCount, bs, bot =>
      let bs := if 0 < attempt then bs ++ [retryDelay * 2 ^ attempt] else bs
      match outcomes attempt with
      | .ok status =>
          let atts := atts ++ [.ok status]
          let recCount := recCount + 1
          if status = some 200 then ⟨true, atts, recCount, bs, bot⟩
          else if status = some 503 then
            gotoGo retryDelay maxRetries outcomes fuel (attempt + 1) wu atts recCount bs bot
          else if attempt < maxRetries - 1 then
            gotoGo retryDelay maxRetries outcomes fuel (attempt + 1) wu atts recCount bs bot
          else ⟨false, atts, recCount, bs, bot⟩
      | .exn k =>
          let atts := atts ++ [.exn k]
          match k with
          | .timeout =>
              if wu = "networkidle" ∧ attempt = 0 then
                gotoGo retryDelay maxRetries outcomes fuel (attempt + 1) "load" atts recCount bs bot
              else if attempt = maxRetries - 1 then ⟨false, atts, recCount, bs, bot⟩
              else gotoGo retryDelay maxRetries outcomes fuel (attempt + 1) wu atts recCount bs bot
          | .aborted =>
              if attempt < maxRetries - 1 then
                gotoGo retryDelay maxRetries outcomes fuel (attempt + 1) wu atts recCount bs (bot + 1)
              else if attempt = maxRetries - 1 then ⟨false, atts, recCount, bs, bot⟩
              else gotoGo retryDelay maxRetries outcomes fuel (attempt + 1) wu atts recCount bs bot
          | .other =>
              if attempt = maxRetries - 1 then ⟨false, atts, recCount, bs, bot⟩
              else gotoGo retryDelay maxRetries outcomes fuel (attempt + 1) wu atts recCount bs bot

/-- `BaseScraper.goto` under an explicit retry policy (the initial
`rate_limiter.wait_if_needed()` admission on line 178 precedes the loop and
is not part of the trace). -/
def gotoWith (maxRetries retryDelay : Nat) (outcomes : Nat → NavOutcome)
    (waitUntil : String) : GotoTrace :=
  gotoGo retryDelay maxRetries outcomes maxRetries 0 waitUntil [] 0 [] 0

/-- `BaseScraper.goto` with the configured settings
(`max_retries = 5`, `retry_delay = 25`). -/
def gotoRun (outcomes : Nat → NavOutcome) (waitUntil : String) : GotoTrace :=
  gotoWith settingsMaxRetries settingsRetryDelay outcomes waitUntil

/-! ## Cache manager (`utils/cache_manager.py`) -/

/-- One cache entry: the payload and the timestamp of its last `set`. -/
structure CacheEntry (α : Type) where
  data : α
  cachedAt : Int
  deriving DecidableEq, Repr

/-- In-memory state of a `CacheManager`: the TTL (the duration
`timedelta(hours=cache_ttl_hours)`, in the same seconds unit as timestamps)
and the keyed entries.  The JSON file mirroring (`_load_cache`/`_save_cache`)
persists exactly this state and is elided. -/
structure CacheManager (α : Type) where
  cacheTtl : Int
  cacheData : String → Option (CacheEntry α)

/-- `CacheManager.get` (lines 52-74): absent key gives `None`; an entry with
`now - cached_at > cache_ttl` gives `None`; otherwise the stored payload. -/
def CacheManager.get (s : CacheManager α) (asin : String) (now : Int) :
    Option α :=
  match s.cacheData asin with
  | none => none
  | some e => if now - e.cachedAt > s.cacheTtl then none else some e.data

/-- `CacheManager.set` (lines 76-89): overwrite the entry for the key with
the payload and a fresh `cached_at`. -/
def CacheManager.set (s : CacheManager α) (asin : String) (d : α) (now : Int) :
    CacheManager α :=
  { s with
    cacheData := fun k => if k = asin then some { data := d, cachedAt := now } else s.cacheData k }

/-! ## Session teardown (`base_scraper.py`, `BaseScraper.close`) -/

/-- Which of the four underlying resources are still live (`self.page`,
`self.context`, `self.browser`, `self.playwright` being non-`None` and not
yet released). -/
structure BrowserResources where
  pageOpen : Bool
  contextOpen : Bool
  browserOpen : Bool
  playwrightOpen : Bool
  deriving DecidableEq, Repr

/-- Environment behaviour of the individual close/stop calls: whether each
would raise if executed. -/
structure CloseBehavior where
  pageRaises : Bool
  contextRaises : Bool
  browserRaises : Bool
  playwrightRaises : Bool
  deriving DecidableEq, Repr

/-- `BaseScraper.close` (lines 146-159): the four close/stop calls run in
order inside a single `try`; a raising call jumps to the `except` handler
(which only logs), so the remaining resources are left unreleased, and no
exception ever escapes (the function always returns the resulting state). -/
def closeRun (b : CloseBehavior) (s : BrowserResources) : BrowserResources :=
  if s.pageOpen && b.pageRaises then s
  else
    let s := { s with pageOpen := false }
    if s.contextOpen && b.contextRaises then s
    else
      let s := { s with contextOpen := false }
      if s.browserOpen && b.browserRaises then s
      else
        let s := { s with browserOpen := false }
        if s.playwrightOpen && b.playwrightRaises then s
        else { s with playwrightOpen := false }

/-! ## Concrete environments used by the claim theorems -/

/-- A product card whose rank badge displays `#2` and whose link points at
ASIN `B000000001`. -/
def elemRank2 : RawElement :=
  { rankText := some "#2", href := some "/dp/B000000001", raises := false }

/-- A product card without a readable rank badge, ASIN `B000000002`. -/
def elemNoRank : RawElement :=
  { rankText := none, href := some "/dp/B000000002", raises := false }

/-- Hybrid environment: page 1 loads and shows the single `elemRank2` card on
every extraction; every attempt at page 2 fails to navigate. -/
def attRank2 : Nat → Nat → PageAttempt := fun page _retry =>
  if page = 1 then
    { gotoOk := true, selectorFound := true, extracts := fun _ => [elemRank2] }
  else { gotoOk := false, selectorFound := false, extracts := fun _ => [] }

/-- Pagination environment: page 1 renders the same product card twice;
page 2 never loads. -/
def fetchDup : Nat → PageFetch := fun page =>
  if page = 1 then
    { gotoOk := true, selectorFound := true, elements := [elemNoRank, elemNoRank] }
  else { gotoOk := false, selectorFound := false, elements := [] }

/-- Hybrid environment in which every attempt of every page fails. -/
def attAllFail : Nat → Nat → PageAttempt := fun _page _retry =>
  { gotoOk := false, selectorFound := false, extracts := fun _ => [] }

/-- The global limiter (settings limits) after 16 `record_request()` calls in
the same second, as `goto` produces when several navigation attempts of
several calls land inside one minute. -/
def limiterOverflow : RateLimiterState :=
  (RateLimiterState.init defaultRequestsPerMinute defaultRequestsPerHour 0).applyRecords
    (List.replicate 16 0)

/-- Navigation environment in which every attempt gets an HTTP 503. -/
def outcomes503 : Nat → NavOutcome := fun _ => .ok (some 503)

/-- The retryable outcomes of the failure taxonomy of the spec: a transient 503,
a timeout, or a connection-aborted error. -/
def TransientOutcome (o : NavOutcome) : Prop :=
  o = .ok (some 503) ∨ o = .exn .timeout ∨ o = .exn .aborted

/-- Navigation environment for the two-transient-failures-then-success
scenario. -/
def twoFailEnv (o0 o1 : NavOutcome) : Nat → NavOutcome := fun i =>
  if i = 0 then o0 else if i = 1 then o1 else .ok (some 200)

/-- Close behaviour in which `page.close()` raises and the other three calls
would succeed. -/
def behPageRaises : CloseBehavior :=
  { pageRaises := true, contextRaises := false, browserRaises := false
    playwrightRaises := false }

/-- Close behaviour in which every close call succeeds. -/
def behNoRaise : CloseBehavior :=
  { pageRaises := false, contextRaises := false, browserRaises := false
    playwrightRaises := false }

/-- A fully initialized session: all four resources live. -/
def allOpenResources : BrowserResources :=
  { pageOpen := true, contextOpen := true, browserOpen := true
    playwrightOpen := true }

/-- Scrape environment used to witness the universally quantified claims. -/
def witnessEnv : ScrapeEnv :=
  { hybridAttempts := attRank2
    scrollGotoOk := true
    scrollExtracts := fun _ => [elemNoRank]
    pageFetches := fetchDup }

/-! ## Helper lemmas about the collection loops -/

theorem map_asin_assignRanks (idx : Nat) (rs : List Product) :
    (assignRanks idx rs).map Product.asin = rs.map Product.asin := by
  induction rs generalizing idx with
  | nil => rfl
  | cons p rest ih =>
      simp only [assignRanks, List.map_cons, ih]
      congr 1
      split <;> rfl

theorem hasAsin_false_iff (rs : List Product) (a : String) :
    hasAsin rs a = false ↔ ∀ q ∈ rs, q.asin ≠ a := by
  simp [hasAsin]

theorem addUnique_cases (rs : List Product) (p : Product) :
    addUnique rs p = rs ∨
      (addUnique rs p = rs ++ [p] ∧ p.asin ≠ "" ∧ hasAsin rs p.asin = false) := by
  unfold addUnique
  split_ifs with h
  · simp only [Bool.and_eq_true, bne_iff_ne, ne_eq, Bool.not_eq_true'] at h
    exact Or.inr ⟨rfl, h.1, h.2⟩
  · exact Or.inl rfl

theorem nodup_map_asin_addUnique {rs : List Product} (p : Product)
    (h : (rs.map Product.asin).Nodup) :
    ((addUnique rs p).map Product.asin).Nodup := by
  rcases addUnique_cases rs p with h1 | ⟨h1, _h2, h3⟩
  · rw [h1]; exact h
  · rw [h1, List.map_append, List.nodup_append]
    refine ⟨h, by simp, ?_⟩
    intro a ha hb
    simp only [List.map_cons, List.map_nil, List.mem_singleton] at hb
    subst hb
    rcases List.mem_map.mp ha with ⟨q, hq, hqa⟩
    exact (hasAsin_false_iff rs p.asin).mp h3 q hq hqa

theorem nodup_map_asin_mergeProducts :
    ∀ (cur rs : List Product), (rs.map Product.asin).Nodup →
      ((mergeProducts rs cur).map Product.asin).Nodup := by
  intro cur
  induction cur with
  | nil => intro rs h; exact h
  | cons c rest ih =>
      intro rs h
      exact ih (addUnique rs c) (nodup_map_asin_addUnique c h)

theorem scrollWithinGo_preserves (P : List Product → Prop)
    (hP : ∀ rs cur, P rs → P (mergeProducts rs cur))
    (ext : Nat → List RawElement) (maxProducts : Nat) :
    ∀ (fuel k : Nat) (rankings : List Product) (prev nc : Nat),
      P rankings → P (scrollWithinGo ext maxProducts fuel k rankings prev nc) := by
  intro fuel
  induction fuel with
  | zero => intro k rankings prev nc h; exact h
  | succ f ih =>
      intro k rankings prev nc h
      simp only [scrollWithinGo]
      have h1 := hP rankings (extractProductsFromPage (ext k)) h
      split_ifs <;> first
        | exact h1
        | exact ih _ _ _ _ h1

theorem scrollWithinPage_preserves (P : List Product → Prop) (hempty : P [])
    (hP : ∀ rs cur, P rs → P (mergeProducts rs cur))
    (ext : Nat → List RawElement) (maxProducts : Nat) :
    P (scrollWithinPage ext maxProducts) :=
  scrollWithinGo_preserves P hP ext maxProducts 15 0 [] 0 0 hempty

theorem tryPage_some (atts : List PageAttempt) (ps : List Product)
    (h : tryPage atts = some ps) :
    ∃ a : PageAttempt, ps = scrollWithinPage a.extracts 60 := by
  induction atts with
  | nil => cases h
  | cons a rest ih =>
      simp only [tryPage] at h
      split_ifs at h with h1 h2 h3
      · exact ih h
      · exact ih h
      · exact ih h
      · exact ⟨a, (Option.some_inj.mp h).symm⟩

theorem hybridGo_preserves (P : List Product → Prop)
    (hP : ∀ rs cur, P rs → P (mergeProducts rs cur))
    (att : Nat → Nat → PageAttempt) (maxRank : Nat) :
    ∀ (fuel page : Nat) (acc : List Product),
      P acc → P (hybridGo att maxRank fuel page acc) := by
  intro fuel
  induction fuel with
  | zero => intro page acc h; exact h
  | succ f ih =>
      intro page acc h
      simp only [hybridGo]
      split_ifs with h1
      · cases htp : tryPage (attemptsFor (att page)) with
        | none => exact h
        | some ps =>
            have h2 := hP acc ps h
            dsimp only
            split_ifs <;> first | exact h2 | exact ih _ _ h2
      · exact h

theorem scrollScrapeGo_preserves (P : List Product → Prop)
    (hP : ∀ rs cur, P rs → P (mergeProducts rs cur))
    (ext : Nat → List RawElement) (maxRank : Nat) :
    ∀ (fuel k : Nat) (rankings : List Product) (prev nc : Nat),
      P rankings → P (scrollScrapeGo ext maxRank fuel k rankings prev nc) := by
  intro fuel
  induction fuel with
  | zero => intro k rankings prev nc h; exact h
  | succ f ih =>
      intro k rankings prev nc h
      simp only [scrollScrapeGo]
      have h1 := hP rankings (extractProductsFromPage (ext k)) h
      have h2 := hP _ (extractProductsFromPage (ext (k + 1))) h1
      split_ifs <;> first
        | exact h1
        | exact h2
        | exact ih _ _ _ _ h1
        | exact ih _ _ _ _ h2

/-- Every product a collection run can hold has a truthy (non-empty) `asin`. -/
def NonemptyAsins (rs : List Product) : Prop := ∀ p ∈ rs, p.asin ≠ ""

theorem nonempty_asins_extract_aux :
    ∀ (es : List RawElement) (acc : List Product), NonemptyAsins acc →
      NonemptyAsins (es.foldl
        (fun acc e =>
          match extractProductData e with
          | some p => if p.asin ≠ "" then acc ++ [p] else acc
          | none => acc) acc) := by
  intro es
  induction es with
  | nil => intro acc h; exact h
  | cons e rest ih =>
      intro acc h
      simp only [List.foldl_cons]
      apply ih
      cases hd : extractProductData e with
      | none => simpa using h
      | some p =>
          dsimp only
          split_ifs with hp
          · intro q hq
            rcases List.mem_append.mp hq with hq | hq
            · exact h q hq
            · rw [List.mem_singleton.mp hq]; exact hp
          · exact h

theorem nonempty_asins_extract (es : List RawElement) :
    NonemptyAsins (extractProductsFromPage es) :=
  nonempty_asins_extract_aux es [] (by intro p hp; cases hp)

theorem nonempty_asins_addUnique {rs : List Product} (p : Product)
    (h : NonemptyAsins rs) : NonemptyAsins (addUnique rs p) := by
  rcases addUnique_cases rs p with h1 | ⟨h1, h2, _⟩
  · rw [h1]; exact h
  · rw [h1]
    intro q hq
    rcases List.mem_append.mp hq with hq | hq
    · exact h q hq
    · rw [List.mem_singleton.mp hq]; exact h2

theorem nonempty_asins_merge :
    ∀ (cur rs : List Product), NonemptyAsins rs →
      NonemptyAsins (mergeProducts rs cur) := by
  intro cur
  induction cur with
  | nil => intro rs h; exact h
  | cons c rest ih => intro rs h; exact ih (addUnique rs c) (nonempty_asins_addUnique c h)

theorem nonempty_asins_append {rs ps : List Product} (h1 : NonemptyAsins rs)
    (h2 : NonemptyAsins ps) : NonemptyAsins (rs ++ ps) := by
  intro q hq
  rcases List.mem_append.mp hq with hq | hq
  · exact h1 q hq
  · exact h2 q hq

theorem paginationGo_nonempty_asins (env : Nat → PageFetch) (maxRank : Nat) :
    ∀ (fuel page : Nat) (acc : List Product), NonemptyAsins acc →
      NonemptyAsins (paginationGo env maxRank fuel page acc) := by
  intro fuel
  induction fuel with
  | zero => intro page acc h; exact h
  | succ f ih =>
      intro page acc h
      simp only [paginationGo]
      have h1 : NonemptyAsins (acc ++ extractProductsFromPage (env page).elements) :=
        nonempty_asins_append h (nonempty_asins_extract _)
      split_ifs <;> first | exact h | exact h1 | exact ih _ _ h1

theorem nonempty_asins_take {l : List Product} (n : Nat) (h : NonemptyAsins l) :
    NonemptyAsins (l.take n) := by
  intro p hp
  exact h p (List.take_subset n l hp)

theorem nonempty_asins_assignRanks (idx : Nat) {rs : List Product}
    (h : NonemptyAsins rs) : NonemptyAsins (assignRanks idx rs) := by
  intro p hp
  have hmem : p.asin ∈ (assignRanks idx rs).map Product.asin :=
    List.mem_map_of_mem Product.asin hp
  rw [map_asin_assignRanks] at hmem
  rcases List.mem_map.mp hmem with ⟨q, hq, hqa⟩
  rw [← hqa]
  exact h q hq

theorem nodup_asin_hybridScrape (att : Nat → Nat → PageAttempt) (maxRank : Nat) :
    ((hybridScrape att maxRank).map Product.asin).Nodup := by
  unfold hybridScrape
  rw [map_asin_assignRanks, List.map_take]
  exact (hybridGo_preserves (fun rs => (rs.map Product.asin).Nodup)
    (fun rs cur h => nodup_map_asin_mergeProducts cur rs h) att maxRank _ 1 []
      (by simp)).sublist (List.take_sublist _ _)

theorem nodup_asin_scrollScrape (g : Bool) (ext : Nat → List RawElement) (maxRank : Nat) :
    ((scrollScrape g ext maxRank).map Product.asin).Nodup := by
  unfold scrollScrape
  split_ifs
  · rw [map_asin_assignRanks, List.map_take]
    exact (scrollScrapeGo_preserves (fun rs => (rs.map Product.asin).Nodup)
      (fun rs cur h => nodup_map_asin_mergeProducts cur rs h) ext maxRank 30 0 [] 0 0
        (by simp)).sublist (List.take_sublist _ _)
  · simp

theorem nonempty_asins_hybridScrape (att : Nat → Nat → PageAttempt) (maxRank : Nat) :
    NonemptyAsins (hybridScrape att maxRank) := by
  unfold hybridScrape
  exact nonempty_asins_assignRanks 1 (nonempty_asins_take _
    (hybridGo_preserves NonemptyAsins (fun rs cur h => nonempty_asins_merge cur rs h)
      att maxRank _ 1 [] (by intro p hp; cases hp)))

theorem nonempty_asins_scrollScrape (g : Bool) (ext : Nat → List RawElement) (maxRank : Nat) :
    NonemptyAsins (scrollScrape g ext maxRank) := by
  unfold scrollScrape
  split_ifs
  · exact nonempty_asins_assignRanks 1 (nonempty_asins_take _
      (scrollScrapeGo_preserves NonemptyAsins (fun rs cur h => nonempty_asins_merge cur rs h)
        ext maxRank 30 0 [] 0 0 (by intro p hp; cases hp)))
  · intro p hp; cases hp

theorem nonempty_asins_paginationScrape (env : Nat → PageFetch) (maxRank : Nat) :
    NonemptyAsins (paginationScrape env maxRank) := by
  unfold paginationScrape
  exact nonempty_asins_assignRanks 1 (nonempty_asins_take _
    (paginationGo_nonempty_asins env maxRank _ 1 [] (by intro p hp; cases hp)))

/-! ## Helper lemmas about the navigator and the rate limiter -/

theorem gotoGo_recorded_counts_ok (rd mr : Nat) (outcomes : Nat → NavOutcome) :
    ∀ (fuel attempt : Nat) (wu : String) (atts : List NavOutcome) (rc : Nat)
      (bs : List Nat) (bot : Nat),
      rc = (atts.filter NavOutcome.isOk).length →
      (gotoGo rd mr outcomes fuel attempt wu atts rc bs bot).recorded =
        ((gotoGo rd mr outcomes fuel attempt wu atts rc bs bot).attemptsRun.filter
          NavOutcome.isOk).length := by
  intro fuel
  induction fuel with
  | zero => intro attempt wu atts rc bs bot h; exact h
  | succ f ih =>
      intro attempt wu atts rc bs bot h
      have hok : ∀ st : Option Nat,
          rc + 1 = ((atts ++ [NavOutcome.ok st]).filter NavOutcome.isOk).length := by
        intro st; simp [List.filter_append, NavOutcome.isOk, h]
      have hexn : ∀ k : NavErrKind,
          rc = ((atts ++ [NavOutcome.exn k]).filter NavOutcome.isOk).length := by
        intro k; simp [List.filter_append, NavOutcome.isOk, h]
      simp only [gotoGo]
      cases houtcome : outcomes attempt with
      | ok status =>
          dsimp only
          split_ifs <;>
            first
              | exact hok status
              | exact ih _ _ _ _ _ _ (hok status)
      | exn k =>
          cases k <;> dsimp only <;> split_ifs <;>
            first
              | exact hexn _
              | exact ih _ _ _ _ _ _ (hexn _)

theorem gotoGo_success_recorded_pos (rd mr : Nat) (outcomes : Nat → NavOutcome) :
    ∀ (fuel attempt : Nat) (wu : String) (atts : List NavOutcome) (rc : Nat)
      (bs : List Nat) (bot : Nat),
      (gotoGo rd mr outcomes fuel attempt wu atts rc bs bot).success = true →
      1 ≤ (gotoGo rd mr outcomes fuel attempt wu atts rc bs bot).recorded := by
  intro fuel
  induction fuel with
  | zero =>
      intro attempt wu atts rc bs bot h
      simp only [gotoGo] at h
      cases h
  | succ f ih =>
      intro attempt wu atts rc bs bot
      simp only [gotoGo]
      cases houtcome : outcomes attempt with
      | ok status =>
          dsimp only
          split_ifs <;> intro h <;>
            first
              | exact Nat.succ_le_succ (Nat.zero_le rc)
              | exact ih _ _ _ _ _ _ h
      | exn k =>
          cases k <;> dsimp only <;> split_ifs <;> intro h <;>
            first
              | exact ih _ _ _ _ _ _ h
              | cases h

theorem applyRecords_sessionCount :
    ∀ (ts : List Int) (s : RateLimiterState),
      (s.applyRecords ts).sessionRequestCount = s.sessionRequestCount + ts.length := by
  intro ts
  induction ts with
  | nil => intro s; rfl
  | cons t rest ih =>
      intro s
      have h : s.applyRecords (t :: rest) = (s.recordRequest t).applyRecords rest := rfl
      rw [h, ih]
      simp [RateLimiterState.recordRequest]
      omega

theorem applyRecords_threshold :
    ∀ (ts : List Int) (s : RateLimiterState),
      (s.applyRecords ts).rotationThreshold = s.rotationThreshold := by
  intro ts
  induction ts with
  | nil => intro s; rfl
  | cons t rest ih =>
      intro s
      have h : s.applyRecords (t :: rest) = (s.recordRequest t).applyRecords rest := rfl
      rw [h, ih]
      simp [RateLimiterState.recordRequest]

/-! ## Claim theorems -/

/-- Claim C1.  The claim states that every item at 1-based position `i` of a
result of a collection run has `rank = i`, regardless of any rank value
extracted from the source page.  The code (rank_scraper.py lines 295-297)
only fills in ranks that are `None` and keeps an extracted page-displayed
rank: on a hybrid run whose single collected card displays rank badge `#2`,
the returned item sits at position 1 but carries rank 2.  The repair script
shipped with the repository (`fix_rankings.py`) calls exactly such position-mismatched
ranks "incorrect" and rewrites them positionally, so the claim matches the
documented intent and the code is the slip. -/
theorem claim_C1_rank_keeps_displayed_value :
    hybridScrape attRank2 100 = [{ rank := some 2, asin := "B000000001" }] ∧
    hybridScrape attRank2 100 ≠ [{ rank := some 1, asin := "B000000001" }] := by
  constructor
  · decide
  · decide

/-- Claim C2 (counterexample).  The claim asserts that no collection run in
any of the three modes returns duplicate ASINs; in pagination mode
(`rankings.extend(page_products)`, rank_scraper.py line 421) no duplicate
check is made: a page that renders the same product card twice yields a
result with a duplicated `asin`. -/
theorem claim_C2_pagination_duplicates :
    ¬ ((paginationScrape fetchDup 100).map Product.asin).Nodup := by decide

/-- Claim C2 (amended).  In the hybrid and scroll modes every merge step
checks the accumulated list for the ASIN before appending, so the returned
list never contains two items with the same `asin`; the pagination mode
gives no such guarantee. -/
theorem claim_C2_hybrid_scroll_unique_asins (att : Nat → Nat → PageAttempt)
    (g : Bool) (ext : Nat → List RawElement) (maxRank maxRank2 : Nat) :
    ((hybridScrape att maxRank).map Product.asin).Nodup ∧
    ((scrollScrape g ext maxRank2).map Product.asin).Nodup :=
  ⟨nodup_asin_hybridScrape att maxRank, nodup_asin_scrollScrape g ext maxRank2⟩

/-- Claim C3 (counterexample).  The claim asserts the window bounds hold
after every sequence of `record_request()` calls on every state.
`record_request` appends unconditionally (rate_limiter.py lines 163-177):
sixteen calls within one second on the default-configured limiter leave
16 > 15 timestamps in the minute window. -/
theorem claim_C3_overflow_after_unchecked_records :
    ¬ (limiterOverflow.minuteRequests.length ≤ limiterOverflow.requestsPerMinute ∧
       limiterOverflow.hourRequests.length ≤ limiterOverflow.requestsPerHour) := by
  decide

/-- Claim C3 (amended).  A `record_request()` that immediately follows a
successful admission check (`can_make_request()` returning `True` at the
same instant, which is what `wait_if_needed` polls before a request) leaves
at most `requests_per_minute` timestamps in the minute window and at most
`requests_per_hour` in the hour window. -/
theorem claim_C3_bounded_after_admitted_record (s : RateLimiterState) (now : Int)
    (h : (s.canMakeRequest now).1 = true) :
    ((s.canMakeRequest now).2.recordRequest now).minuteRequests.length ≤
        s.requestsPerMinute ∧
    ((s.canMakeRequest now).2.recordRequest now).hourRequests.length ≤
        s.requestsPerHour := by
  simp only [RateLimiterState.canMakeRequest] at h ⊢
  split_ifs at h ⊢ with h1 h2
  dsimp only [RateLimiterState.cleanOldRequests, RateLimiterState.recordRequest] at h1 h2 ⊢
  simp only [List.length_append, List.length_cons, List.length_nil]
  constructor <;> omega

/-- Witness for claim C3 (amended) at the freshly initialized default
limiter. -/
theorem claim_C3_bounded_after_admitted_record_witness :
    (((RateLimiterState.init 15 200 0).canMakeRequest 0).2.recordRequest 0).minuteRequests.length ≤
        (RateLimiterState.init 15 200 0).requestsPerMinute ∧
    (((RateLimiterState.init 15 200 0).canMakeRequest 0).2.recordRequest 0).hourRequests.length ≤
        (RateLimiterState.init 15 200 0).requestsPerHour :=
  claim_C3_bounded_after_admitted_record (RateLimiterState.init 15 200 0) 0 (by decide)

/-- Claim C4 (counterexample).  The claim asserts a request is recorded when
and only when `goto` returns success.  `rate_limiter.record_request()` runs
on line 205 of base_scraper.py, after `page.goto` returns but before the
status is checked: a call whose five attempts all get HTTP 503 returns
`False` yet records five requests. -/
theorem claim_C4_failed_goto_records :
    (gotoRun outcomes503 "load").success = false ∧
    (gotoRun outcomes503 "load").recorded = 5 := by decide

/-- Claim C4 (amended).  `goto` records exactly one request per navigation
attempt whose `page.goto` call returned without raising, whatever the HTTP
status; attempts that raise record nothing, and a successful `goto` has
recorded at least one request. -/
theorem claim_C4_record_per_returned_attempt (mr rd : Nat)
    (outcomes : Nat → NavOutcome) (wu : String) :
    (gotoWith mr rd outcomes wu).recorded =
      ((gotoWith mr rd outcomes wu).attemptsRun.filter NavOutcome.isOk).length ∧
    ((gotoWith mr rd outcomes wu).success = true →
      1 ≤ (gotoWith mr rd outcomes wu).recorded) :=
  ⟨gotoGo_recorded_counts_ok rd mr outcomes mr 0 wu [] 0 [] 0 rfl,
   gotoGo_success_recorded_pos rd mr outcomes mr 0 wu [] 0 [] 0⟩

/-- Witness for claim C4 (amended): an immediately successful navigation. -/
theorem claim_C4_record_per_returned_attempt_witness :
    (gotoWith 5 25 (fun _ => NavOutcome.ok (some 200)) "load").recorded =
      ((gotoWith 5 25 (fun _ => NavOutcome.ok (some 200)) "load").attemptsRun.filter
        NavOutcome.isOk).length ∧
    1 ≤ (gotoWith 5 25 (fun _ => NavOutcome.ok (some 200)) "load").recorded :=
  ⟨(claim_C4_record_per_returned_attempt 5 25 (fun _ => NavOutcome.ok (some 200)) "load").1,
   (claim_C4_record_per_returned_attempt 5 25 (fun _ => NavOutcome.ok (some 200)) "load").2
     (by decide)⟩

/-- Claim C5.  In a hybrid run, when all three retries of page 1 fail the
page loop breaks with nothing collected and the whole-target result is the
empty list (a failure with zero items); when all retries of a later page
fail, the loop breaks returning exactly the already-accumulated best-effort
products (which the caller then truncates and rank-fills). -/
theorem claim_C5_page1_abort_later_best_effort (att : Nat → Nat → PageAttempt)
    (maxRank : Nat) :
    (tryPage (attemptsFor (att 1)) = none → hybridScrape att maxRank = []) ∧
    (∀ (fuel page : Nat) (acc : List Product), 2 ≤ page →
      tryPage (attemptsFor (att page)) = none →
      hybridGo att maxRank fuel page acc = acc) := by
  constructor
  · intro h
    unfold hybridScrape
    rcases hmp : maxPageFor maxRank with _ | m
    · simp [hybridGo, assignRanks]
    · have hmr : 0 < maxRank := by
        unfold maxPageFor at hmp
        omega
      have hle : 1 ≤ maxPageFor maxRank := by omega
      simp [hybridGo, h, hmr, hle, assignRanks]
  · intro fuel page acc _hpage h
    cases fuel with
    | zero => rfl
    | succ f =>
        simp only [hybridGo]
        split_ifs with h1
        · simp [h]
        · rfl

/-- Witness for claim C5: an environment where every page attempt fails
(page 1 yields the empty overall result; a later-page failure hands back the
accumulated list unchanged). -/
theorem claim_C5_page1_abort_later_best_effort_witness :
    hybridScrape attAllFail 100 = [] ∧
    hybridGo attAllFail 100 1 2 [{ rank := none, asin := "B000000009" }] =
      [{ rank := none, asin := "B000000009" }] :=
  ⟨(claim_C5_page1_abort_later_best_effort attAllFail 100).1 (by decide),
   (claim_C5_page1_abort_later_best_effort attAllFail 100).2 1 2 _ (by decide) (by decide)⟩

/-- Claim C6.  Under a `max_retries = 3` policy, a `goto` whose first two
attempts fail with retryable outcomes (transient 503, timeout, or
connection-aborted) and whose third attempt succeeds returns success, and
exactly two exponential backoff sleeps occur, of durations
`retry_delay * 2 ^ 1` and `retry_delay * 2 ^ 2` (the extra random
anti-bot-detection pause of the aborted case is a separate sleep, not a
backoff sleep). -/
theorem claim_C6_two_transients_then_success (d : Nat) (wu : String)
    (o0 o1 : NavOutcome) (h0 : TransientOutcome o0) (h1 : TransientOutcome o1) :
    (gotoWith 3 d (twoFailEnv o0 o1) wu).success = true ∧
    (gotoWith 3 d (twoFailEnv o0 o1) wu).backoffSleeps = [d * 2 ^ 1, d * 2 ^ 2] := by
  rcases h0 with h0 | h0 | h0 <;> rcases h1 with h1 | h1 | h1 <;> subst h0 <;> subst h1 <;>
    by_cases hwu : wu = "networkidle" <;>
    simp [gotoWith, gotoGo, twoFailEnv, hwu]

/-- Witness for claim C6: two 503 responses then a 200 under the configured
`retry_delay = 25`. -/
theorem claim_C6_two_transients_then_success_witness :
    (gotoWith 3 25 (twoFailEnv (NavOutcome.ok (some 503)) (NavOutcome.ok (some 503))) "load").success
        = true ∧
    (gotoWith 3 25 (twoFailEnv (NavOutcome.ok (some 503)) (NavOutcome.ok (some 503))) "load").backoffSleeps
        = [25 * 2 ^ 1, 25 * 2 ^ 2] :=
  claim_C6_two_transients_then_success 25 "load" _ _ (Or.inl rfl) (Or.inl rfl)

/-- Claim C7.  A freshly computed rotation threshold
(`base + random.randint(-jitter, jitter)`) lies in
`[base - jitter, base + jitter]`; with fewer recorded requests than the
threshold `should_rotate_session()` is `False`; from exactly `threshold`
recorded requests on it is `True` and remains `True` however many further
requests are recorded; and `reset_session_count()` (with a fresh in-range
draw) makes it `False` again. -/
theorem claim_C7_session_rotation (r : Int)
    (hlo : -(sessionRotationJitter : Int) ≤ r)
    (hhi : r ≤ (sessionRotationJitter : Int)) :
    ((sessionRotationInterval : Int) - (sessionRotationJitter : Int) ≤
        calcRotationThreshold r ∧
      calcRotationThreshold r ≤
        (sessionRotationInterval : Int) + (sessionRotationJitter : Int)) ∧
    (∀ (rpm rph : Nat) (ts : List Int),
      (((ts.length : Int) < calcRotationThreshold r) →
        ((RateLimiterState.init rpm rph r).applyRecords ts).shouldRotateSession = false) ∧
      ((calcRotationThreshold r ≤ (ts.length : Int)) →
        ((RateLimiterState.init rpm rph r).applyRecords ts).shouldRotateSession = true)) ∧
    (∀ (s : RateLimiterState) (r2 : Int), -(sessionRotationJitter : Int) ≤ r2 →
      (s.resetSessionCount r2).shouldRotateSession = false) := by
  refine ⟨⟨?_, ?_⟩, ?_, ?_⟩
  · unfold calcRotationThreshold; omega
  · unfold calcRotationThreshold; omega
  · intro rpm rph ts
    have hc := applyRecords_sessionCount ts (RateLimiterState.init rpm rph r)
    have ht := applyRecords_threshold ts (RateLimiterState.init rpm rph r)
    have hinit : (RateLimiterState.init rpm rph r).rotationThreshold =
        calcRotationThreshold r := rfl
    have hinitc : (RateLimiterState.init rpm rph r).sessionRequestCount = 0 := rfl
    rw [hinit] at ht
    rw [hinitc] at hc
    constructor <;> intro hlen <;>
      simp only [RateLimiterState.shouldRotateSession, ht, hc,
        decide_eq_false_iff_not, decide_eq_true_eq, not_le] <;>
      omega
  · intro s r2 hr2
    simp only [RateLimiterState.resetSessionCount, RateLimiterState.shouldRotateSession,
      decide_eq_false_iff_not, not_le]
    unfold calcRotationThreshold
    unfold sessionRotationInterval sessionRotationJitter at *
    omega

/-- Witness for claim C7 at the draw `r = 0` (threshold 40): 39 records do
not trigger rotation, 40 do, and a reset clears it. -/
theorem claim_C7_session_rotation_witness :
    ((RateLimiterState.init 15 200 0).applyRecords (List.replicate 39 0)).shouldRotateSession
        = false ∧
    ((RateLimiterState.init 15 200 0).applyRecords (List.replicate 40 0)).shouldRotateSession
        = true ∧
    ((((RateLimiterState.init 15 200 0).applyRecords (List.replicate 40 0)).resetSessionCount 0)).shouldRotateSession
        = false :=
  ⟨((claim_C7_session_rotation 0 (by decide) (by decide)).2.1 15 200
      (List.replicate 39 0)).1 (by decide),
   ((claim_C7_session_rotation 0 (by decide) (by decide)).2.1 15 200
      (List.replicate 40 0)).2 (by decide),
   (claim_C7_session_rotation 0 (by decide) (by decide)).2.2 _ 0 (by decide)⟩

/-- Claim C8.  `set(k, v)` immediately followed by `get(k)` returns `v`
(for a non-negative TTL, as the configured 24 hours is); `get(k)` of a key
whose entry is older than the TTL returns `None`, exactly as for a key that
was never set. -/
theorem claim_C8_cache_set_get_ttl {α : Type} (s : CacheManager α) (k : String)
    (v : α) (t now : Int) (httl : 0 ≤ s.cacheTtl) :
    ((s.set k v t).get k t = some v) ∧
    (s.cacheData k = none → s.get k now = none) ∧
    (∀ e : CacheEntry α, s.cacheData k = some e → now - e.cachedAt > s.cacheTtl →
      s.get k now = none) := by
  refine ⟨?_, ?_, ?_⟩
  · have h0 : ¬ (t - t > s.cacheTtl) := by omega
    simp [CacheManager.set, CacheManager.get, h0]
    exact httl
  · intro h
    simp [CacheManager.get, h]
  · intro e he hex
    simp [CacheManager.get, he, hex]

/-- Witness for claim C8 on a concrete empty cache with the default
24-hour TTL (86400 seconds). -/
theorem claim_C8_cache_set_get_ttl_witness :
    ((({ cacheTtl := 86400, cacheData := fun _ => none } : CacheManager Nat).set
        "B07XJ8C8F5" 7 5).get "B07XJ8C8F5" 5 = some 7) ∧
    (({ cacheTtl := 86400, cacheData := fun _ => none } : CacheManager Nat).get
        "B07XJ8C8F5" 999999 = none) :=
  ⟨(claim_C8_cache_set_get_ttl
      ({ cacheTtl := 86400, cacheData := fun _ => none } : CacheManager Nat)
      "B07XJ8C8F5" 7 5 999999 (by decide)).1,
   (claim_C8_cache_set_get_ttl
      ({ cacheTtl := 86400, cacheData := fun _ => none } : CacheManager Nat)
      "B07XJ8C8F5" 7 5 999999 (by decide)).2.1 rfl⟩

/-- Claim C9 (counterexample).  The claim states `close()` releases all four
resources unconditionally even when an individual close raises.  All four
close calls share one `try` block (base_scraper.py lines 148-159), so when
`page.close()` raises, the context, browser and playwright driver are left
unreleased. -/
theorem claim_C9_close_skips_rest_after_raise :
    (closeRun behPageRaises allOpenResources).contextOpen = true ∧
    (closeRun behPageRaises allOpenResources).browserOpen = true ∧
    (closeRun behPageRaises allOpenResources).playwrightOpen = true := by decide

/-- Claim C9 (amended).  `close()` never propagates an exception (the
handler only logs, so the embedding is a total function), and it releases
the resources in order page, context, browser, playwright; when none of the
close calls raises, all four resources are released, from any prior state. -/
theorem claim_C9_close_releases_all_when_no_raise (b : CloseBehavior)
    (s : BrowserResources) (h1 : b.pageRaises = false) (h2 : b.contextRaises = false)
    (h3 : b.browserRaises = false) (h4 : b.playwrightRaises = false) :
    closeRun b s =
      { pageOpen := false, contextOpen := false, browserOpen := false,
        playwrightOpen := false } := by
  simp [closeRun, h1, h2, h3, h4]

/-- Witness for claim C9 (amended): a full teardown of a live session with
no raising close call. -/
theorem claim_C9_close_releases_all_when_no_raise_witness :
    closeRun behNoRaise allOpenResources =
      { pageOpen := false, contextOpen := false, browserOpen := false,
        playwrightOpen := false } :=
  claim_C9_close_releases_all_when_no_raise behNoRaise allOpenResources rfl rfl rfl rfl

/-- Claim C10.  Every item returned by `RankScraper.scrape` in any of the
three modes has a non-empty `asin`: `_extract_product_data` returns `None`
for an element without a truthy extracted ASIN, `_extract_products_from_page`
keeps only truthy-`asin` products, and the merge loops re-check the field. -/
theorem claim_C10_collected_items_have_asin (env : ScrapeEnv) (maxRank : Nat)
    (useScroll useHybrid : Bool) (p : Product)
    (hp : p ∈ scrape env maxRank useScroll useHybrid) : p.asin ≠ "" := by
  unfold scrape at hp
  split_ifs at hp
  · exact nonempty_asins_hybridScrape env.hybridAttempts maxRank p hp
  · exact nonempty_asins_scrollScrape env.scrollGotoOk env.scrollExtracts maxRank p hp
  · exact nonempty_asins_paginationScrape env.pageFetches maxRank p hp

/-- Witness for claim C10 on a concrete hybrid run. -/
theorem claim_C10_collected_items_have_asin_witness :
    ({ rank := some 2, asin := "B000000001" } : Product) ∈ scrape witnessEnv 100 true true ∧
    ({ rank := some 2, asin := "B000000001" } : Product).asin ≠ "" :=
  ⟨by decide,
   claim_C10_collected_items_have_asin witnessEnv 100 true true _ (by decide)⟩
